import Mathlib

/-!
# SecureAuth — verification of the multi-signal phishing-detection engine

Shallow embedding of the SecureAuth content script (`SecureAuthMonitor`):
signal collectors (`analyzeDomain`, `checkPasswordBreach`,
`analyzeFormCharacteristics`, ...), the risk aggregator
(`calculateRiskScore`, `getRiskLevel`), the decision policy
(`handleRiskDecision`) and the submission interceptor
(`handleFormSubmit`, `findUsernameField`).

JavaScript strings are modelled as Lean `String`, numbers as `ℚ`
(all scores and weights in the program are exact decimal values),
and the DOM inputs of each function are modelled as explicit data
(lists of fields, label texts, link texts, counts) carrying exactly
the attributes the source reads.
-/

namespace SecureAuth

/-- Substring test: `pat` occurs as a contiguous substring of `s`
(JavaScript `s.includes(pat)`). -/
def strContains (s pat : String) : Bool :=
  decide (pat.toList <:+: s.toList)

/-- Ending test: `s` ends with `pat` (JavaScript `s.endsWith(pat)`). -/
def strEndsWith (s pat : String) : Bool :=
  decide (pat.toList <:+ s.toList)

/-- Case-insensitive substring test, modelling a JavaScript
`/pat/i.test(s)` for a literal pattern `pat` given in lower case. -/
def strContainsCI (s pat : String) : Bool :=
  decide ((pat.toList.map Char.toLower) <:+: (s.toList.map Char.toLower))

/-- Split a character list at every occurrence of `sep`, keeping empty
pieces — the semantics of JavaScript `s.split(sep)` for a one-character
separator (`"".split(sep)` gives `[""]`). -/
def splitOnChar (sep : Char) : List Char → List (List Char)
  | [] => [[]]
  | c :: rest =>
      let r := splitOnChar sep rest
      if c == sep then [] :: r
      else
        match r with
        | [] => [[c]]
        | piece :: more => (c :: piece) :: more

/-! DomainSignal (`analyzeDomain`, content script lines 155–214) -/

/-- The `trustedDomains` allowlist from the `SecureAuthMonitor`
constructor. -/
def trustedDomains : List String :=
  ["google.com", "microsoft.com", "facebook.com", "apple.com",
   "github.com", "linkedin.com", "twitter.com", "amazon.com",
   "yahoo.com", "dropbox.com", "salesforce.com"]

/-- The trusted-domain test from `analyzeDomain`: the hostname equals an
allowlist entry or ends with `"." ++ entry` (i.e. is a subdomain of it). -/
def isTrustedHost (hostname : String) : Bool :=
  trustedDomains.any fun td => hostname == td || strEndsWith hostname ("." ++ td)

/-- The `containsHomographs` test: the hostname contains Cyrillic characters.
The regex literal in the shipped file is encoding-mangled (it is the
Mac-Roman mojibake of the UTF-8 class `[а-яА-Я]` and, as stored, is not
a valid regex); we model the class the adjacent comment documents:
the Cyrillic ranges `а`–`я` (U+0430–U+044F) and `А`–`Я` (U+0410–U+042F). -/
def containsHomographs (hostname : String) : Bool :=
  hostname.toList.any fun c =>
    (0x430 ≤ c.toNat && c.toNat ≤ 0x44F) || (0x410 ≤ c.toNat && c.toNat ≤ 0x42F)

/-- The `suspiciousTLDs` list from `analyzeDomain`. -/
def suspiciousTLDs : List String := ["tk", "ml", "ga", "cf", "gq", "xyz", "top"]

/-- The value of `hostname.split('.').pop()` — the last dot-separated component. -/
def lastLabel (hostname : String) : String :=
  ⟨(splitOnChar '.' hostname.toList).getLastD []⟩

/-- The analysis record built by `analyzeDomain`. -/
structure DomainAnalysis where
  hostname : String
  protocol : String
  isTrusted : Bool
  suspiciousPatterns : List String
  score : Int
deriving DecidableEq, Repr

/-- The `analyzeDomain` signal (content script lines 155–208), with the page URL's
hostname and protocol as explicit inputs.  Starts at score 50; the
trusted-allowlist hit sets score 90 and `isTrusted`; the `login` and
`secure` substring deductions are guarded by `!isTrusted`; the
homograph, suspicious-TLD and non-HTTPS deductions are unguarded. -/
def analyzeDomain (hostname protocol : String) : DomainAnalysis :=
  let a : DomainAnalysis :=
    { hostname := hostname, protocol := protocol, isTrusted := false,
      suspiciousPatterns := [], score := 50 }
  let a := if isTrustedHost hostname then { a with isTrusted := true, score := 90 } else a
  let a := if strContains hostname "login" && !a.isTrusted then
      { a with suspiciousPatterns := a.suspiciousPatterns ++ ["Contains \"login\" in subdomain"],
               score := a.score - 20 } else a
  let a := if strContains hostname "secure" && !a.isTrusted then
      { a with suspiciousPatterns := a.suspiciousPatterns ++ ["Contains \"secure\" in domain"],
               score := a.score - 15 } else a
  let a := if containsHomographs hostname then
      { a with suspiciousPatterns := a.suspiciousPatterns ++ ["Possible homograph attack detected"],
               score := a.score - 30 } else a
  let a := if suspiciousTLDs.contains (lastLabel hostname) then
      { a with suspiciousPatterns := a.suspiciousPatterns ++ ["Suspicious TLD: " ++ lastLabel hostname],
               score := a.score - 25 } else a
  let a := if protocol != "https:" then
      { a with suspiciousPatterns := a.suspiciousPatterns ++ ["Not using HTTPS"],
               score := a.score - 40 } else a
  a

/-! RiskAggregator (`calculateRiskScore`, `getRiskLevel`, lines 390–419) -/

/-- The four discrete risk levels. -/
inductive RiskLevel
  | LOW | MEDIUM | HIGH | CRITICAL
deriving DecidableEq, Repr

/-- The six keys of the `weights` object in `calculateRiskScore`,
one per signal. -/
inductive SignalKey
  | domain | certificate | breachCheck | formCharacteristics
  | visualSimilarity | domainReputation
deriving DecidableEq, Repr

/-- The `weights` object, in its insertion (iteration) order. -/
def weights : List (SignalKey × ℚ) :=
  [(.domain, 0.30), (.certificate, 0.15), (.breachCheck, 0.25),
   (.formCharacteristics, 0.15), (.visualSimilarity, 0.10),
   (.domainReputation, 0.05)]

/-- The weighted-sum loop of `calculateRiskScore`: starting from
`totalScore = 0`, for each `(key, weight)` entry add
`results[key].score * weight` when `results[key]` exists and its
`score` is not `undefined`, and skip the entry otherwise
(modelled by `results key = none`). -/
def calculateRiskScore (results : SignalKey → Option ℚ) : ℚ :=
  weights.foldl
    (fun totalScore kw =>
      match results kw.1 with
      | some s => totalScore + s * kw.2
      | none => totalScore)
    0

/-- The `getRiskLevel` mapping (lines 414–419): thresholds evaluated high to low. -/
def getRiskLevel (score : ℚ) : RiskLevel :=
  if score ≥ 70 then .LOW
  else if score ≥ 40 then .MEDIUM
  else if score ≥ 20 then .HIGH
  else .CRITICAL

/-- The RiskAssessment built by `calculateRiskScore`:
overall score plus its discrete level. -/
structure RiskAssessment where
  overall : ℚ
  level : RiskLevel
deriving DecidableEq, Repr

/-- The value returned by `calculateRiskScore` (overall + level;
the `details` field just echoes the input results). -/
def riskAssessmentOf (results : SignalKey → Option ℚ) : RiskAssessment :=
  { overall := calculateRiskScore results,
    level := getRiskLevel (calculateRiskScore results) }

/-! DecisionPolicy (`handleRiskDecision`, lines 421–446)

`handleRiskDecision` is effectful: it shows overlays, sends a log
message and may re-dispatch the suppressed submission.  We model one
run of it as the trace of those externally visible effects.  The
`UserChoice` argument is the value with which the warning overlay's
promise would resolve, were it shown. -/

/-- The resolution of the `showWarningWithChoice` overlay. -/
inductive UserChoice
  | proceed | cancel
deriving DecidableEq, Repr

/-- Externally visible effects of one `handleRiskDecision` run. -/
structure DecisionEffects where
  /-- `showBlockingWarning` was called (blocking overlay shown). -/
  blockingWarningShown : Bool
  /-- number of `logBlockedAttempt` calls (log entries sent). -/
  logBlockedCalls : Nat
  /-- `showWarningWithChoice` was called (user was prompted). -/
  choicePromptShown : Bool
  /-- number of `form.submit()` dispatches via `allowFormSubmission`. -/
  submitCalls : Nat
deriving DecidableEq, Repr

/-- The empty effect trace. -/
def noEffects : DecisionEffects :=
  { blockingWarningShown := false, logBlockedCalls := 0,
    choicePromptShown := false, submitCalls := 0 }

/-- The `allowFormSubmission` effect (lines 577–590): re-dispatches the suppressed
native submission exactly once per call (`form.submit()`). -/
def allowFormSubmission (e : DecisionEffects) : DecisionEffects :=
  { e with submitCalls := e.submitCalls + 1 }

/-- The `handleRiskDecision` policy (lines 421–446), as an effect trace.
CRITICAL/HIGH: blocking overlay + log, early return (no submit).
MEDIUM: choice overlay; `proceed` resumes via `allowFormSubmission`,
`cancel` returns without resuming and without logging.
LOW: resumes via `allowFormSubmission`. -/
def handleRiskDecision (level : RiskLevel) (userChoice : UserChoice) :
    DecisionEffects :=
  if level = .CRITICAL ∨ level = .HIGH then
    { noEffects with blockingWarningShown := true, logBlockedCalls := 1 }
  else if level = .MEDIUM then
    let e := { noEffects with choicePromptShown := true }
    if userChoice = .proceed then allowFormSubmission e else e
  else
    allowFormSubmission noEffects

/-! BreachSignal (`checkPasswordBreach`, `sha1`, lines 236–288)

`sha1` maps the password to an upper-case 40-character hex digest.
We take the digest string as the input and model the network as an
explicit `FetchOutcome`: the successful branch carries the response
body, the two failure branches are a non-OK response and a thrown
error (rejected fetch, or any exception inside the `try`). -/

/-- Outcome of the `fetch` to the breach-range service. -/
inductive FetchOutcome
  | ok (body : String)
  | httpError
  | thrown
deriving DecidableEq, Repr

/-- The result object of `checkPasswordBreach`.  `count` is
`parseInt(count)` (`none` encodes JS `NaN`/absence), `warning` the
interpolated warning string of the found branch. -/
structure BreachResult where
  checked : Bool
  found : Bool
  count : Option Int
  warning : Option String
  score : Int
deriving DecidableEq, Repr

/-- The longest digit run at the head of the list. -/
def leadingDigits : List Char → List Char
  | [] => []
  | c :: rest => if c.isDigit then c :: leadingDigits rest else []

/-- Numeric value of a digit list. -/
def digitsVal (l : List Char) : Nat :=
  l.foldl (fun acc c => acc * 10 + (c.toNat - 48)) 0

/-- JavaScript `parseInt(x)` as used on the COUNT field of a breach
record: `none` is JS `NaN` (absent field or no leading digits);
otherwise the value of the leading decimal-digit run after optional
whitespace and sign. -/
def jsParseInt (s : Option String) : Option Int :=
  match s with
  | none => none
  | some str =>
      let t := str.toList.dropWhile fun c =>
        c == ' ' || c == '\t' || c == '\n' || c == '\r'
      let signedDigits : Bool × List Char :=
        match t with
        | '-' :: rest => (true, leadingDigits rest)
        | '+' :: rest => (false, leadingDigits rest)
        | _ => (false, leadingDigits t)
      if signedDigits.2.isEmpty then none
      else if signedDigits.1 then some (-(digitsVal signedDigits.2 : Int))
      else some (digitsVal signedDigits.2 : Int)

/-- The local comparison key of `checkPasswordBreach`:
`sha1Hash.substring(5).toUpperCase()`. -/
def digestSuffix (sha1Hash : String) : List Char :=
  (sha1Hash.toList.drop 5).map Char.toUpper

/-- The `for (const line of hashes)` scan of `checkPasswordBreach`
(lines 258–275): split each line at `:`, compare the first field with
the local suffix by exact string equality (`===`), and return on the
first match; falling off the loop yields the clean-password result. -/
def scanRanges (suffix : List Char) : List (List Char) → BreachResult
  | [] => { checked := true, found := false, count := none,
            warning := none, score := 80 }
  | line :: rest =>
      let parts := splitOnChar ':' line
      let hashSuffix := parts.headD []
      let countField : Option String := (parts[1]?).map fun l => ⟨l⟩
      if hashSuffix == suffix then
        { checked := true, found := true,
          count := jsParseInt countField,
          warning := some ("Password found in " ++
            (countField.getD "undefined") ++ " data breaches"),
          score := 0 }
      else scanRanges suffix rest

/-- The `checkPasswordBreach` signal (lines 236–281) given the password's digest
and the fetch outcome.  Both failure branches return the neutral
fail-open result; a catch swallows every thrown error, so the function
is total and never propagates an exception. -/
def checkPasswordBreach (sha1Hash : String) (resp : FetchOutcome) :
    BreachResult :=
  match resp with
  | .httpError => { checked := false, found := false, count := none,
                    warning := none, score := 50 }
  | .thrown => { checked := false, found := false, count := none,
                 warning := none, score := 50 }
  | .ok body =>
      scanRanges (digestSuffix sha1Hash) (splitOnChar '\n' body.toList)

/-- The HTTP request issued by `checkPasswordBreach` (lines 243–248):
GET on the range endpoint keyed by `sha1Hash.substring(0, 5)`, with the
`Add-Padding: true` header.  Only the URL depends on the digest. -/
structure BreachRequest where
  url : String
  httpMethod : String
  addPaddingHeader : String
deriving DecidableEq, Repr

/-- The request value built from the digest. -/
def breachRequest (sha1Hash : String) : BreachRequest :=
  { url := "https://api.pwnedpasswords.com/range/" ++ ⟨sha1Hash.toList.take 5⟩,
    httpMethod := "GET",
    addPaddingHeader := "true" }

/-! FormSignal (`analyzeFormCharacteristics`, lines 290–338)

The DOM facts the function reads are modelled explicitly: the number of
`<label>` elements in the form, for each checkbox the `textContent` of
its `label[for=id]` (when that query finds one), the `textContent` of
each `<a>` in the form, and the number of `<iframe>` elements in the
whole document.  The trusted-allowlist re-check is the
`analyzeDomain().isTrusted` call on the page's hostname/protocol. -/

/-- The DOM inputs of `analyzeFormCharacteristics`. -/
structure FormModel where
  labelCount : Nat
  checkboxLabelTexts : List (Option String)
  linkTexts : List String
  pageIframeCount : Nat
deriving DecidableEq, Repr

/-- The analysis record built by `analyzeFormCharacteristics`. -/
structure FormAnalysis where
  hasProperLabels : Bool
  hasRememberMe : Bool
  hasForgotPassword : Bool
  hasRegisterLink : Bool
  suspiciousIframes : Bool
  score : Int
deriving DecidableEq, Repr

/-- The per-checkbox `/remember/i` label test. -/
def rememberTest : Option String → Bool
  | some txt => strContainsCI txt "remember"
  | none => false

/-- The per-link `/forgot|reset/i` test. -/
def forgotTest (txt : String) : Bool :=
  strContainsCI txt "forgot" || strContainsCI txt "reset"

/-- The per-link `/register|sign up|create account/i` test. -/
def registerTest (txt : String) : Bool :=
  strContainsCI txt "register" || strContainsCI txt "sign up" ||
    strContainsCI txt "create account"

/-- Body of the `checkboxes.forEach` loop (lines 309–315). -/
def checkboxStep (a : FormAnalysis) (lt : Option String) : FormAnalysis :=
  if rememberTest lt then
    { a with hasRememberMe := true, score := a.score + 5 }
  else a

/-- Body of the `links.forEach` loop (lines 319–328). -/
def linkStep (a : FormAnalysis) (txt : String) : FormAnalysis :=
  let a := if forgotTest txt then
      { a with hasForgotPassword := true, score := a.score + 10 } else a
  if registerTest txt then
    { a with hasRegisterLink := true, score := a.score + 5 }
  else a

/-- The `analyzeFormCharacteristics` signal (lines 290–338).  Starts at 50; +10
once for ≥2 labels; the checkbox and link adjustments sit inside
`forEach` loops and fire once per matching element; −20 once for
page iframes on an untrusted domain. -/
def analyzeFormCharacteristics (form : FormModel)
    (hostname protocol : String) : FormAnalysis :=
  let a : FormAnalysis :=
    { hasProperLabels := false, hasRememberMe := false,
      hasForgotPassword := false, hasRegisterLink := false,
      suspiciousIframes := false, score := 50 }
  let a := if form.labelCount ≥ 2 then
      { a with hasProperLabels := true, score := a.score + 10 } else a
  let a := form.checkboxLabelTexts.foldl checkboxStep a
  let a := form.linkTexts.foldl linkStep a
  if form.pageIframeCount > 0 && !(analyzeDomain hostname protocol).isTrusted then
    { a with suspiciousIframes := true, score := a.score - 20 }
  else a

/-! SubmissionInterceptor (`handleFormSubmit`, `findUsernameField`,
lines 81–139)

A form is modelled as its `<input>` elements in document order, each
carrying the attributes the selectors read. -/

/-- An `<input>` element with the attributes the interceptor reads. -/
structure InputField where
  fieldType : String
  name : String
  id : String
  autocomplete : String
  value : String
deriving DecidableEq, Repr

/-- The prioritized selector list of `findUsernameField`
(lines 117–127), each selector as a predicate on an input element;
`[name*=...]`/`[id*=...]` are substring matches. -/
def usernameSelectors : List (InputField → Bool) :=
  [fun f => f.fieldType == "email",
   fun f => f.fieldType == "text" && strContains f.name "user",
   fun f => f.fieldType == "text" && strContains f.name "email",
   fun f => f.fieldType == "text" && strContains f.name "login",
   fun f => f.fieldType == "text" && strContains f.id "user",
   fun f => f.fieldType == "text" && strContains f.id "email",
   fun f => f.fieldType == "text" && strContains f.id "login",
   fun f => f.autocomplete == "username",
   fun f => f.autocomplete == "email"]

/-- The selector loop of `findUsernameField`: for each selector in
order, `querySelector` returns the first element matching it; the loop
returns that element only when its `value` is non-empty, else moves on.
After the loop, the fallback returns the first text/email input, or
null. -/
def findUsernameFieldAux (fs : List InputField) :
    List (InputField → Bool) → Option InputField
  | [] => fs.find? fun f => f.fieldType == "text" || f.fieldType == "email"
  | sel :: rest =>
      match fs.find? sel with
      | some f => if f.value != "" then some f else findUsernameFieldAux fs rest
      | none => findUsernameFieldAux fs rest

/-- The full `findUsernameField` lookup (lines 115–139). -/
def findUsernameField (fs : List InputField) : Option InputField :=
  findUsernameFieldAux fs usernameSelectors

/-- What one `handleFormSubmit` run does with the event: pass it
through untouched (no `preventDefault`, no analysis, no
RiskAssessment), or suppress it and start the analysis pipeline on the
captured password and username values. -/
inductive SubmitAction
  | passThrough
  | intercept (password username : String)
deriving DecidableEq, Repr

/-- The recognition logic of `handleFormSubmit` (lines 81–97): the
first password-typed input must exist with non-empty value, and
`findUsernameField` must produce a field with non-empty value;
otherwise the handler returns before `preventDefault`. -/
def handleFormSubmit (fs : List InputField) : SubmitAction :=
  match fs.find? fun f => f.fieldType == "password" with
  | none => .passThrough
  | some pf =>
      if pf.value == "" then .passThrough
      else
        match findUsernameField fs with
        | none => .passThrough
        | some uf =>
            if uf.value == "" then .passThrough
            else .intercept pf.value uf.value

/-! Theorems, one per claim of the specification review. -/

/-- C1 (counterexample): the trusted-domain short-circuit does NOT make
the score 90 for every scheme — on the allowlisted hostname
`google.com` served over `http:`, the unguarded non-HTTPS deduction
still fires and the final score is 50, not 90. -/
theorem trusted_short_circuit_cex :
    isTrustedHost "google.com" = true ∧
    (analyzeDomain "google.com" "http:").score = 50 ∧
    (analyzeDomain "google.com" "http:").score ≠ 90 := by decide

/-- C1 (amended): for every hostname on the trusted allowlist,
`analyzeDomain` sets `trusted = true` and starts the score at 90, and
the `login`/`secure` substring deductions are short-circuited; but the
homograph, suspicious-TLD and non-secure-scheme deductions are not
short-circuited, so the final score is 90 minus exactly those three
possible deductions. -/
theorem trusted_score_formula (hostname protocol : String)
    (h : isTrustedHost hostname = true) :
    (analyzeDomain hostname protocol).isTrusted = true ∧
    (analyzeDomain hostname protocol).score =
      90 - (if containsHomographs hostname then 30 else 0)
         - (if suspiciousTLDs.contains (lastLabel hostname) then 25 else 0)
         - (if protocol != "https:" then 40 else 0) := by
  simp only [analyzeDomain, h]
  simp only [if_true, Bool.not_true, Bool.and_false, Bool.false_and, Bool.and_true]
  split_ifs <;> simp_all

/-- C1 (witness): the amended trusted-domain formula instantiated at
hostname `google.com` over `https:`. -/
theorem trusted_score_formula_witness :
    isTrustedHost "google.com" = true ∧
    ((analyzeDomain "google.com" "https:").isTrusted = true ∧
     (analyzeDomain "google.com" "https:").score =
       90 - (if containsHomographs "google.com" then 30 else 0)
          - (if suspiciousTLDs.contains (lastLabel "google.com") then 25 else 0)
          - (if "https:" != "https:" then 40 else 0)) :=
  ⟨by decide, trusted_score_formula "google.com" "https:" (by decide)⟩

/-- Results table with all six signals present, for the aggregator
theorems. -/
def allSix (d c b f v r : ℚ) : SignalKey → Option ℚ
  | .domain => some d
  | .certificate => some c
  | .breachCheck => some b
  | .formCharacteristics => some f
  | .visualSimilarity => some v
  | .domainReputation => some r

/-- C2: for all six signal scores, the aggregated overall score is the
weighted sum with weights 0.30/0.15/0.25/0.15/0.10/0.05, the weights
sum to 1, and the all-neutral table (six scores of 50) aggregates to
exactly overall 50 with level MEDIUM. -/
theorem aggregator_weighted_sum (d c b f v r : ℚ) :
    calculateRiskScore (allSix d c b f v r) =
      d * 0.30 + c * 0.15 + b * 0.25 + f * 0.15 + v * 0.10 + r * 0.05 ∧
    (weights.map Prod.snd).sum = 1 ∧
    riskAssessmentOf (allSix 50 50 50 50 50 50) =
      { overall := 50, level := .MEDIUM } := by
  refine ⟨?_, by norm_num [weights], ?_⟩
  · simp [calculateRiskScore, weights, allSix]
  · norm_num [riskAssessmentOf, calculateRiskScore, weights, allSix, getRiskLevel]

/-- C3: the risk-level mapping realizes the four inclusive-low bands —
for every rational overall score, LOW iff 70 ≤ s, MEDIUM iff
40 ≤ s < 70, HIGH iff 20 ≤ s < 40, CRITICAL iff s < 20; since
`getRiskLevel` is a function, exactly one level applies to each score. -/
theorem risk_level_partition (s : ℚ) :
    (getRiskLevel s = .LOW ↔ 70 ≤ s) ∧
    (getRiskLevel s = .MEDIUM ↔ 40 ≤ s ∧ s < 70) ∧
    (getRiskLevel s = .HIGH ↔ 20 ≤ s ∧ s < 40) ∧
    (getRiskLevel s = .CRITICAL ↔ s < 20) := by
  unfold getRiskLevel
  split_ifs with h1 h2 h3 <;>
    simp only [ge_iff_le, not_le] at * <;>
    simp only [reduceCtorEq, iff_false, iff_true, true_iff, false_iff,
      not_and, not_lt, not_le] <;>
    refine ⟨?_, ?_, ?_, ?_⟩ <;> intros <;>
    first | linarith | (constructor <;> linarith)

/-- C4: the decision policy resumes the suppressed submission
(`form.submit`) exactly once on LOW and on MEDIUM-with-proceed, and
never otherwise; it emits exactly one blocked-attempt log entry (with
the blocking overlay) exactly on CRITICAL/HIGH; and it prompts the
user for a choice exactly on MEDIUM. -/
theorem decision_policy_paths (level : RiskLevel) (userChoice : UserChoice) :
    (handleRiskDecision level userChoice).submitCalls =
      (if level = .LOW ∨ (level = .MEDIUM ∧ userChoice = .proceed) then 1 else 0) ∧
    (handleRiskDecision level userChoice).logBlockedCalls =
      (if level = .CRITICAL ∨ level = .HIGH then 1 else 0) ∧
    (handleRiskDecision level userChoice).blockingWarningShown =
      decide (level = .CRITICAL ∨ level = .HIGH) ∧
    (handleRiskDecision level userChoice).choicePromptShown =
      decide (level = .MEDIUM) := by
  cases level <;> cases userChoice <;> decide

/-- C5: for every digest, both breach-check failure modes — a non-OK
response and a thrown error — return the neutral fail-open result
`checked = false, found = false, score = 50`; the model is a total
function, reflecting that the catch swallows every exception. -/
theorem breach_fail_open (sha1Hash : String) :
    checkPasswordBreach sha1Hash .httpError =
      { checked := false, found := false, count := none,
        warning := none, score := 50 } ∧
    checkPasswordBreach sha1Hash .thrown =
      { checked := false, found := false, count := none,
        warning := none, score := 50 } :=
  ⟨rfl, rfl⟩

/-- C6 (counterexample): the record scan is NOT case-insensitive — for
the digest `AAAAA…ABC` and a response body holding the matching suffix
in lower case, a case-insensitive comparison finds the record (first
conjunct) yet `checkPasswordBreach` reports no match and score 80. -/
theorem breach_scan_case_cex :
    ((splitOnChar '\n' "00000000000000000000000000000000abc:3".toList).any
      fun line => ((splitOnChar ':' line).headD []).map Char.toUpper ==
        digestSuffix "AAAAA00000000000000000000000000000000ABC") = true ∧
    (checkPasswordBreach "AAAAA00000000000000000000000000000000ABC"
      (.ok "00000000000000000000000000000000abc:3")).found = false ∧
    (checkPasswordBreach "AAAAA00000000000000000000000000000000ABC"
      (.ok "00000000000000000000000000000000abc:3")).score = 80 := by decide

/-- Helper for C6: the early-return record scan equals a first-match
lookup under exact suffix equality. -/
theorem scanRanges_eq_find (suffix : List Char) (lines : List (List Char)) :
    scanRanges suffix lines =
      match lines.find? (fun line => (splitOnChar ':' line).headD [] == suffix) with
      | some line =>
          { checked := true, found := true,
            count := jsParseInt (((splitOnChar ':' line)[1]?).map fun l => ⟨l⟩),
            warning := some ("Password found in " ++
              ((((splitOnChar ':' line)[1]?).map fun l => (⟨l⟩ : String)).getD
                "undefined") ++ " data breaches"),
            score := 0 }
      | none => { checked := true, found := false, count := none,
                  warning := none, score := 80 } := by
  induction lines with
  | nil => rfl
  | cons line rest ih =>
      cases hm : ((splitOnChar ':' line).headD [] == suffix) with
      | true => simp only [List.find?_cons, hm, scanRanges, if_true]
      | false =>
          simp only [List.find?_cons, hm, scanRanges, Bool.false_eq_true, if_false]
          exact ih

/-- C6 (amended): on a successful response, the scan splits the body
into newline-delimited records and compares each record's first
`:`-field with the UPPERCASED local digest suffix by exact
(case-sensitive) string equality; the first exact match yields score 0,
`found = true` and the record's count (and the count inside the warning
finding), and the absence of an exact match yields score 80 with
`found = false`. -/
theorem breach_scan_exact (sha1Hash body : String) :
    checkPasswordBreach sha1Hash (.ok body) =
      match (splitOnChar '\n' body.toList).find?
          (fun line => (splitOnChar ':' line).headD [] == digestSuffix sha1Hash) with
      | some line =>
          { checked := true, found := true,
            count := jsParseInt (((splitOnChar ':' line)[1]?).map fun l => ⟨l⟩),
            warning := some ("Password found in " ++
              ((((splitOnChar ':' line)[1]?).map fun l => (⟨l⟩ : String)).getD
                "undefined") ++ " data breaches"),
            score := 0 }
      | none => { checked := true, found := false, count := none,
                  warning := none, score := 80 } :=
  scanRanges_eq_find (digestSuffix sha1Hash) (splitOnChar '\n' body.toList)

/-- C7: the breach-check request is determined by the first five
characters of the digest alone — any two digests sharing that head
produce identical requests (URL, method and padding header). -/
theorem breach_request_shared_head (h1 h2 : String)
    (h : h1.toList.take 5 = h2.toList.take 5) :
    breachRequest h1 = breachRequest h2 := by
  have hd : List.take 5 h1.data = List.take 5 h2.data := h
  simp [breachRequest, hd]

/-- C7 (witness): two distinct digests sharing the 5-character head
produce the same request. -/
theorem breach_request_shared_head_witness :
    ("AAAAA1111111111111111111111111111111111B" : String).toList.take 5 =
      ("AAAAA2222222222222222222222222222222222C" : String).toList.take 5 ∧
    breachRequest "AAAAA1111111111111111111111111111111111B" =
      breachRequest "AAAAA2222222222222222222222222222222222C" :=
  ⟨by decide, breach_request_shared_head _ _ (by decide)⟩

/-- The FormSignal score as the spec's words claim it: 50 plus each of
the five adjustments applied AT MOST ONCE.  This definition follows the
specification, not the code, and exists to be compared with
`analyzeFormCharacteristics`. -/
def specFormScore (form : FormModel) (hostname protocol : String) : Int :=
  50 + (if form.labelCount ≥ 2 then 10 else 0)
     + (if form.checkboxLabelTexts.any rememberTest then 5 else 0)
     + (if form.linkTexts.any forgotTest then 10 else 0)
     + (if form.linkTexts.any registerTest then 5 else 0)
     - (if form.pageIframeCount > 0 ∧ (analyzeDomain hostname protocol).isTrusted = false
        then 20 else 0)

/-- C8 (counterexample): on a form with two forgot/reset-password
links, the code adds the +10 link bonus once per matching link and
scores 70, while the at-most-once reading of the claim gives 60. -/
theorem form_adjustment_once_cex :
    (analyzeFormCharacteristics
      { labelCount := 0, checkboxLabelTexts := [],
        linkTexts := ["Forgot password?", "Reset password"], pageIframeCount := 0 }
      "example.com" "https:").score = 70 ∧
    specFormScore
      { labelCount := 0, checkboxLabelTexts := [],
        linkTexts := ["Forgot password?", "Reset password"], pageIframeCount := 0 }
      "example.com" "https:" = 60 := by decide

/-- Helper for C8: the checkbox loop adds 5 per matching checkbox. -/
theorem checkbox_foldl_score (l : List (Option String)) (a : FormAnalysis) :
    (l.foldl checkboxStep a).score =
      a.score + 5 * (l.countP rememberTest : Int) := by
  induction l generalizing a with
  | nil => simp
  | cons x xs ih =>
      by_cases hx : rememberTest x <;>
        (simp [List.countP_cons, checkboxStep, hx, ih]; try ring)

/-- Helper for C8: the link loop adds 10 per forgot/reset link and 5
per registration link. -/
theorem link_foldl_score (l : List String) (a : FormAnalysis) :
    (l.foldl linkStep a).score =
      a.score + 10 * (l.countP forgotTest : Int) +
        5 * (l.countP registerTest : Int) := by
  induction l generalizing a with
  | nil => simp
  | cons x xs ih =>
      by_cases hf : forgotTest x <;> by_cases hr : registerTest x <;>
        simp [List.countP_cons, linkStep, hf, hr, ih] <;> ring

/-- C8 (amended): the FormSignal score is 50, plus 10 at most once for
having at least two labels, plus 5 PER remember-me checkbox with a
matching label, plus 10 PER forgot/reset link, plus 5 PER registration
link, minus 20 at most once for page frames on an untrusted domain —
the label and frame adjustments fire at most once, the three loop
adjustments fire once per matching element. -/
theorem form_score_per_element (form : FormModel) (hostname protocol : String) :
    (analyzeFormCharacteristics form hostname protocol).score =
      50 + (if form.labelCount ≥ 2 then 10 else 0)
         + 5 * (form.checkboxLabelTexts.countP rememberTest : Int)
         + 10 * (form.linkTexts.countP forgotTest : Int)
         + 5 * (form.linkTexts.countP registerTest : Int)
         - (if form.pageIframeCount > 0 ∧ (analyzeDomain hostname protocol).isTrusted = false
            then 20 else 0) := by
  unfold analyzeFormCharacteristics
  by_cases hl : form.labelCount ≥ 2 <;>
    by_cases hi : form.pageIframeCount > 0 ∧
        (analyzeDomain hostname protocol).isTrusted = false <;>
      simp [hl, hi, link_foldl_score, checkbox_foldl_score]

/-- C9: whenever every password-typed input of the form has an empty
value, or the username resolution yields no field with a non-empty
value, the interceptor returns before `preventDefault`: the submission
passes through with no analysis and no RiskAssessment. -/
theorem not_applicable_passthrough (fs : List InputField)
    (h : (∀ f ∈ fs, f.fieldType = "password" → f.value = "") ∨
         (∀ f, findUsernameField fs = some f → f.value = "")) :
    handleFormSubmit fs = .passThrough := by
  unfold handleFormSubmit
  cases hfind : fs.find? (fun f => f.fieldType == "password") with
  | none => rfl
  | some pf =>
      rcases h with h | h
      · have hmem : pf ∈ fs := List.mem_of_find?_eq_some hfind
        have hty := List.find?_some hfind
        have hv : pf.value = "" := h pf hmem (by simpa using hty)
        simp [hv]
      · by_cases hv : pf.value = ""
        · simp [hv]
        · cases hu : findUsernameField fs with
          | none => simp [hu, hv]
          | some uf =>
              have huv : uf.value = "" := h uf hu
              simp [hu, hv, huv]

/-- C9 (witness): a form whose only input is an empty password field
passes through. -/
theorem not_applicable_witness :
    (∀ f ∈ [({ fieldType := "password", name := "pw", id := "pw",
               autocomplete := "", value := "" } : InputField)],
       f.fieldType = "password" → f.value = "") ∧
    handleFormSubmit
      [{ fieldType := "password", name := "pw", id := "pw",
         autocomplete := "", value := "" }] = .passThrough :=
  ⟨by decide, not_applicable_passthrough _ (Or.inl (by decide))⟩

/-- C10: for every results table, the aggregator silently skips the
entries that are missing or carry no numeric score (they contribute 0)
and applies the original, unrenormalized weight to each present score. -/
theorem missing_signals_omitted (results : SignalKey → Option ℚ) :
    calculateRiskScore results =
      (results .domain).elim 0 (· * 0.30) +
      (results .certificate).elim 0 (· * 0.15) +
      (results .breachCheck).elim 0 (· * 0.25) +
      (results .formCharacteristics).elim 0 (· * 0.15) +
      (results .visualSimilarity).elim 0 (· * 0.10) +
      (results .domainReputation).elim 0 (· * 0.05) := by
  cases hd : results .domain <;> cases hc : results .certificate <;>
    cases hb : results .breachCheck <;> cases hf : results .formCharacteristics <;>
      cases hv : results .visualSimilarity <;> cases hr : results .domainReputation <;>
        simp [calculateRiskScore, weights, hd, hc, hb, hf, hv, hr]

end SecureAuth
